import Mathlib

/-!
Shallow embedding of the AI-Assistant-Chat client (src/app/static/js) in Lean 4,
used to check the natural-language specification against the code.

The repository contains several superseded rewrites of the same modules; each
definition below names the source file and line range it embeds.  DOM containers
are modelled as lists of records carrying the attributes the code reads
(`data-message-id`, `data-parent-id`, `data-response-to-message-id`, raw content,
the edited indicator); fetch/WebSocket traffic is modelled by returning the list
of envelopes/requests a call hands to the transport.
-/

/-- Message roles, as used in the `role` field of envelopes and in the
`user-message` / `assistant-message` / `system-message` CSS classes. -/
inductive Role
  | user
  | assistant
  | system
deriving DecidableEq, Repr

/-- A transport envelope (client to server over the WebSocket), with the fields
the client code actually writes.  Absent JS object properties are `none`
(respectively `false` for the boolean flags). -/
structure Envelope where
  type : Option String := none
  user_id : Option String := none
  message : Option String := none
  conversation_id : Option String := none
  message_id : Option String := none
  edit_message_id : Option String := none
  client_id : Option String := none
  regenerate : Bool := false
  edit : Bool := false
  original_message_id : Option String := none
deriving DecidableEq, Repr

/-- A companion REST request issued via `fetch` by the client code. -/
inductive Request
  | editMessage (messageId : String) (content : String)
  | regenerate (parentId : String)
  | deleteMsg (messageId : String)
deriving DecidableEq, Repr

/-- `WebSocket.readyState` values. -/
inductive ReadyState
  | connecting
  | openRS
  | closing
  | closedRS
deriving DecidableEq, Repr

/-- `socket && socket.readyState === WebSocket.OPEN` — the connectivity test used
by `isConnected` and by both `sendMessage` variants (`socket = none` models a
`null` socket variable). -/
def wsIsOpen : Option ReadyState → Bool
  | some ReadyState.openRS => true
  | _ => false

/-- JavaScript `String.prototype.trim()`: strips leading and trailing
whitespace.  (`Char.isWhitespace` covers the ASCII whitespace relevant to the
validation checks `!messageText.trim()`.) -/
def jsTrim (s : String) : String :=
  String.mk ((s.toList.dropWhile Char.isWhitespace).reverse.dropWhile Char.isWhitespace).reverse

/-- Updates the first element satisfying `p` — the effect of a
`document.querySelector(...)` hit followed by an in-place mutation of the found
element; later elements (further matches of `querySelectorAll`) are untouched. -/
def updateFirst {α : Type} (p : α → Bool) (f : α → α) : List α → List α
  | [] => []
  | x :: xs => if p x then f x :: xs else x :: updateFirst p f xs

/-! ## src/app/static/js/websocket.js — `WebSocketManager` -/

/-- `scheduleReconnect` (websocket.js lines 110-126).
`this.reconnectAttempts = (this.reconnectAttempts || 0) + 1` followed by
`delay = Math.min(Math.pow(2, this.reconnectAttempts) * 1000, 30000)`.
Returns the updated attempt counter and the computed delay in milliseconds. -/
def scheduleReconnect (reconnectAttempts : Nat) : Nat × Nat :=
  let attempts := reconnectAttempts + 1
  (attempts, min (2 ^ attempts * 1000) 30000)

/-- What `manager_sendMessage` (and the `onopen` handler through it) does:
the possibly-undefined JS return value, the envelopes handed to the transport,
how many implicit `connectWebSocket()` calls were started, and the system
messages displayed in the chat. -/
structure ManagerSendOut where
  retVal : Option Bool
  transmitted : List Envelope
  connectAttempts : Nat
  systemMessages : List String
deriving DecidableEq, Repr

/-- `WebSocketManager.sendMessage` (websocket.js lines 132-166).
The function first enriches the envelope: defaults `conversation_id` from
`ConversationManager` (only when `type === 'message'`, tested before the type
default is applied), defaults `user_id` and `type`, and stamps `client_id`.
If the socket is open it hands the envelope to the transport; otherwise it
displays a system message and calls `this.connectWebSocket()` — an implicit
reconnection attempt.  The JS function has no `return` statement, so its value
is `undefined` (`retVal := none`) on every path.  (The `try/catch` around
`socket.send` only surfaces a system message on a throw; the throw-free
behaviour of `socket.send` is modelled.) -/
def manager_sendMessage (socket : Option ReadyState) (curConv : Option String)
    (userId clientId : String) (messageData : Envelope) : ManagerSendOut :=
  let d := if messageData.conversation_id.isNone && messageData.type == some "message"
           then { messageData with conversation_id := curConv } else messageData
  let d := if d.user_id.isNone then { d with user_id := some userId } else d
  let d := if d.type.isNone then { d with type := some "message" } else d
  let d := { d with client_id := some clientId }
  if wsIsOpen socket then
    { retVal := none, transmitted := [d], connectAttempts := 0, systemMessages := [] }
  else
    { retVal := none, transmitted := [], connectAttempts := 1,
      systemMessages := ["Connection lost. Attempting to reconnect..."] }

/-- The `socket.onopen` handler installed by `connectWebSocket`
(websocket.js lines 45-53): it logs and sends a `connect` envelope through
`this.sendMessage`; it performs no assignment to `this.reconnectAttempts`, so
the attempt counter is returned unchanged. -/
def onopen (reconnectAttempts : Nat) (curConv : Option String)
    (userId clientId : String) : Nat × ManagerSendOut :=
  (reconnectAttempts,
   manager_sendMessage (some ReadyState.openRS) curConv userId clientId
     { type := some "connect", user_id := some userId, client_id := some clientId })

/-- Connection-lifecycle events observed by the handlers installed in
`connectWebSocket`: `closeEvt` fires `socket.onclose` (which calls
`scheduleReconnect`), `openEvt` fires `socket.onopen`. -/
inductive WSEvent
  | closeEvt
  | openEvt
deriving DecidableEq, Repr

/-- Runs a sequence of connection-lifecycle events against the attempt counter,
collecting the reconnection delay scheduled at each close. -/
def runEvents : Nat → List WSEvent → Nat × List Nat
  | a, [] => (a, [])
  | a, WSEvent.closeEvt :: es =>
    let p := scheduleReconnect a
    let r := runEvents p.1 es
    (r.1, p.2 :: r.2)
  | a, WSEvent.openEvt :: es => runEvents (onopen a none "default_user" "c").1 es

/-! ## src/app/static/js/utils.js (third document) — `window.wsClient` -/

/-- The observable outcome of `wsClient_sendMessage`: the boolean the function
returns, the envelopes handed to the transport, implicit connect attempts, and
any queue of deferred payloads (the code maintains none). -/
structure ClientSendOut where
  retVal : Bool
  transmitted : List Envelope
  connectAttempts : Nat
  queued : List Envelope
deriving DecidableEq, Repr

/-- `sendMessage` of the `window.wsClient` module (utils.js lines 259-272).
If the socket is open the payload is handed to `socket.send` and the function
returns `true`; otherwise it logs a debug message and returns `false` — no
queueing, no implicit connect, no retry.  (The `try/catch` returns `false` if
`socket.send` throws; the throw-free behaviour is modelled.) -/
def wsClient_sendMessage (socket : Option ReadyState) (payload : Envelope) : ClientSendOut :=
  if wsIsOpen socket then
    { retVal := true, transmitted := [payload], connectAttempts := 0, queued := [] }
  else
    { retVal := false, transmitted := [], connectAttempts := 0, queued := [] }

/-! ## src/app/static/js/message-handlers.js — `MessageHandler` (DOM store) -/

/-- A `.message` element of the chat container: `data-message-id`, the raw
content rendered in `.message-content`, the role class, whether an
`.edited-indicator` child is present, and the `data-parent-id` attribute. -/
structure Msg where
  id : String
  content : String
  role : Role
  isEdited : Bool := false
  parentId : Option String := none
deriving DecidableEq, Repr

/-- The state of the `MessageHandler` module plus the chat container it
mutates, and `ConversationManager.currentConversationId` which
`handleIncomingMessage` adopts. -/
structure MHState where
  chat : List Msg
  currentEditingMessageId : Option String := none
  lastUserMessageId : Option String := none
  lastResponseId : Option String := none
  currentConversationId : Option String := none
deriving DecidableEq, Repr

/-- An inbound server push envelope of `type === 'message'`, with the fields
`handleIncomingMessage` reads. -/
structure IncomingData where
  id : String := ""
  content : String := ""
  role : Role := Role.system
  parent_id : Option String := none
  edit_message_id : Option String := none
  is_edited : Bool := false
  conversation_id : Option String := none
deriving DecidableEq, Repr

/-- `createMessageElement` (message-handlers.js lines 91-147), reduced to the
store attributes it writes: id, content, role class, edited indicator (added
iff `data.is_edited`), and the `data-parent-id` attribute (set iff
`data.parent_id`). -/
def createMessageData (data : IncomingData) : Msg :=
  { id := data.id, content := data.content, role := data.role,
    isEdited := data.is_edited, parentId := data.parent_id }

/-- `replaceMessage` (message-handlers.js lines 154-180).  If a `.message`
element with the id exists (first `querySelector` hit), its content is
rewritten in place and an `.edited-indicator` is appended only when
`data.is_edited` is truthy (kept if already present); otherwise the envelope is
added as a brand-new element with `is_edited: true` (and no parent attribute). -/
def replaceMessage (chat : List Msg) (messageId : String) (data : IncomingData) : List Msg :=
  if chat.any (fun m => m.id == messageId) then
    updateFirst (fun m => m.id == messageId)
      (fun m => { m with content := data.content, isEdited := m.isEdited || data.is_edited }) chat
  else
    chat ++ [{ id := messageId, content := data.content, role := data.role, isEdited := true }]

/-- `handleIncomingMessage` (message-handlers.js lines 56-84).  An envelope with
`edit_message_id` goes through `replaceMessage` (and exits editing mode, whose
store effect is clearing `currentEditingMessageId`); any other envelope is
appended to the chat as a new element.  Then a carried `conversation_id` is
adopted, and the last user/assistant message ids are tracked. -/
def handleIncomingMessage (st : MHState) (data : IncomingData) : MHState :=
  let st1 :=
    match data.edit_message_id with
    | some editId =>
      let st' := { st with chat := replaceMessage st.chat editId data }
      if st'.currentEditingMessageId.isSome then { st' with currentEditingMessageId := none }
      else st'
    | none => { st with chat := st.chat ++ [createMessageData data] }
  let st2 :=
    match data.conversation_id with
    | some cid => { st1 with currentConversationId := some cid }
    | none => st1
  match data.role with
  | Role.user => { st2 with lastUserMessageId := some data.id }
  | Role.assistant => { st2 with lastResponseId := some data.id }
  | Role.system => st2

/-- Result of `saveMessageEdit`: the updated store, the WebSocket envelopes and
the REST requests the call issued. -/
structure EditOut where
  state : MHState
  envelopes : List Envelope
  requests : List Request
deriving DecidableEq, Repr

/-- `saveMessageEdit` (message-handlers.js lines 265-296).  The UI is updated
immediately (content of the first matching `.message` element replaced), then
the edit is sent: over the WebSocket with `edit_message_id` when connected,
else through the REST fallback `sendEditRequest` — in both cases without any
validation of `newContent`.  Editing mode is cleared. -/
def saveMessageEdit (st : MHState) (connected : Bool) (userId : String)
    (conversationId : Option String) (messageId newContent : String) : EditOut :=
  let chat := updateFirst (fun m => m.id == messageId)
    (fun m => { m with content := newContent }) st.chat
  let sent : List Envelope × List Request :=
    if connected then
      ([{ user_id := some userId, message := some newContent,
          conversation_id := conversationId, edit_message_id := some messageId }], [])
    else
      ([], [Request.editMessage messageId newContent])
  { state := { st with chat := chat, currentEditingMessageId := none },
    envelopes := sent.1, requests := sent.2 }

/-- The JS return value of `sendUserMessage`: `false` for empty input, `null`
when an edit was saved instead, or the prepared message data object. -/
inductive SendResult
  | rejectedEmpty
  | editSaved
  | created (messageData : Envelope)
deriving DecidableEq, Repr

/-- Result of `sendUserMessage`: updated store, JS return value, traffic. -/
structure SendOut where
  state : MHState
  result : SendResult
  envelopes : List Envelope
  requests : List Request
deriving DecidableEq, Repr

/-- `sendUserMessage` (message-handlers.js lines 21-50).  Empty/whitespace-only
text returns `false` at once.  In editing mode the call is forwarded to
`saveMessageEdit` and returns `null`.  Otherwise a temporary id
`'temp-' + Date.now()` is created, the message is displayed under that id, and
the message data object is returned (app.js then hands it to
`WebSocketManager.sendMessage`). -/
def sendUserMessage (st : MHState) (connected : Bool) (messageText userId : String)
    (conversationId : Option String) (now : Nat) : SendOut :=
  if jsTrim messageText == "" then
    { state := st, result := SendResult.rejectedEmpty, envelopes := [], requests := [] }
  else
    match st.currentEditingMessageId with
    | some editingId =>
      let r := saveMessageEdit st connected userId conversationId editingId messageText
      { state := r.state, result := SendResult.editSaved,
        envelopes := r.envelopes, requests := r.requests }
    | none =>
      let tempId := "temp-" ++ toString now
      { state := { st with chat :=
          st.chat ++ [{ id := tempId, content := messageText, role := Role.user }] },
        result := SendResult.created
          { user_id := some userId, message := some messageText,
            conversation_id := conversationId },
        envelopes := [], requests := [] }

/-- Whether `regenerateResponse` found a response element and issued a request. -/
inductive RegenOutcome
  | issued
  | noResponseElement
deriving DecidableEq, Repr

/-- Result of `regenerateResponse`: updated store, outcome, requests issued. -/
structure RegenOut where
  state : MHState
  outcome : RegenOutcome
  requests : List Request
deriving DecidableEq, Repr

/-- `regenerateResponse` (message-handlers.js lines 341-366), synchronous part.
If at least one `.message[data-parent-id=parentId]` element exists, the first
one's content is set to the placeholder and `sendRegenerateRequest(parentId)`
is issued — unconditionally: the function keeps no record of in-flight
operations and performs no busy check.  (Resolution of the returned promise —
updating or restoring the content — happens asynchronously and is outside this
synchronous step.) -/
def regenerateResponse (st : MHState) (parentId : String) : RegenOut :=
  if st.chat.any (fun m => m.parentId == some parentId) then
    let chat := updateFirst (fun m => m.parentId == some parentId)
      (fun m => { m with content := "Regenerating..." }) st.chat
    { state := { st with chat := chat },
      outcome := RegenOutcome.issued,
      requests := [Request.regenerate parentId] }
  else
    { state := st, outcome := RegenOutcome.noResponseElement, requests := [] }

/-! ## src/app/static/js/message-handler.js — `window.messageHandlers` -/

/-- An entry of the module-level `messageHistory` array:
`{id, content, role, timestamp}`. -/
structure HistEntry where
  id : String
  content : String
  role : Role
  timestamp : Nat := 0
deriving DecidableEq, Repr

/-- `addMessage` (message-handler.js lines 15-52), store part.  The id is the
custom id or `generateId()` (= `Date.now().toString()`); if the chat container
is missing the function returns the id without touching the history, otherwise
the entry is pushed.  (The DOM element creation and the regenerate-button
decoration do not touch `messageHistory`.) -/
def addMessage (history : List HistEntry) (containerPresent : Bool) (content : String)
    (role : Role) (customId : Option String) (now : Nat) : List HistEntry × String :=
  let messageId := customId.getD (toString now)
  if containerPresent then
    (history ++ [{ id := messageId, content := content, role := role, timestamp := now }],
     messageId)
  else (history, messageId)

/-- `sendUserMessage` (message-handler.js lines 253-266).  Empty/whitespace-only
text returns `false` before anything else; otherwise the message is added
locally via `addMessage` and the payload is handed to `window.wsClient.send`,
whose boolean is returned. -/
def mh_sendUserMessage (history : List HistEntry) (containerPresent : Bool)
    (socket : Option ReadyState) (userId : String) (conversationId : Option String)
    (message : String) (now : Nat) : Bool × List HistEntry × List Envelope :=
  if jsTrim message == "" then (false, history, [])
  else
    let r := addMessage history containerPresent message Role.user none now
    let out := wsClient_sendMessage socket
      { user_id := some userId, message := some message,
        conversation_id := conversationId, message_id := some r.2 }
    (out.retVal, r.1, out.transmitted)

/-- A `.message-container` element of the chat, with its `data-message-id` and
the role of the `.message` inside it (used by the `nextElementSibling`
assistant-response check). -/
structure DomContainer where
  messageId : String
  role : Role
deriving DecidableEq, Repr

/-- The DOM part of `deleteMessage`: remove the first container with the id
and, when the container directly after it holds an `.assistant-message`, that
sibling as well. -/
def deleteFromDom (mid : String) : List DomContainer → List DomContainer
  | [] => []
  | c :: rest =>
    if c.messageId == mid then
      match rest with
      | next :: rest2 => if next.role == Role.assistant then rest2 else rest
      | [] => []
    else c :: deleteFromDom mid rest

/-- Result of `deleteMessage`: JS return value, history, DOM, requests issued. -/
structure DeleteOut where
  ret : Bool
  history : List HistEntry
  dom : List DomContainer
  requests : List Request
deriving DecidableEq, Repr

/-- `deleteMessage` (message-handler.js lines 210-231).  After the `confirm`
dialog the function acts entirely locally and synchronously: it removes the
assistant-response sibling (if any), splices the first matching entry out of
`messageHistory`, removes the container, and returns `true`.  It contains no
`fetch` call: no delete request is ever issued. -/
def mh_deleteMessage (confirmed : Bool) (history : List HistEntry)
    (dom : List DomContainer) (mid : String) : DeleteOut :=
  if confirmed then
    if dom.any (fun c => c.messageId == mid) then
      { ret := true, history := history.eraseP (fun e => e.id == mid),
        dom := deleteFromDom mid dom, requests := [] }
    else { ret := false, history := history, dom := dom, requests := [] }
  else { ret := false, history := history, dom := dom, requests := [] }

/-- A heap of JS arrays of history entries, making aliasing explicit: a
variable holds a reference (index) into the heap. -/
structure JsHeap where
  cells : List (List HistEntry)
deriving DecidableEq, Repr

/-- Dereference a JS array reference. -/
def JsHeap.read (h : JsHeap) (r : Nat) : List HistEntry := h.cells.getD r []

/-- In-place mutation of the array behind a reference (covers push, splice,
reordering: any replacement of the array's contents). -/
def JsHeap.write (h : JsHeap) (r : Nat) (v : List HistEntry) : JsHeap :=
  { cells := h.cells.set r v }

/-- Allocate a fresh array. -/
def JsHeap.alloc (h : JsHeap) (v : List HistEntry) : JsHeap × Nat :=
  ({ cells := h.cells ++ [v] }, h.cells.length)

/-- `getAllMessages` (message-handler.js lines 237-239): `return
[...messageHistory]` — allocates a fresh array whose contents copy the current
history, and returns a reference to the new array. -/
def getAllMessages (h : JsHeap) (messageHistory : Nat) : JsHeap × Nat :=
  JsHeap.alloc h (h.read messageHistory)

/-! ## src/app/static/js/conversation-manager.js — `window.conversationManager` -/

/-- An entry of `responseVersions[userMessageId]`:
`{content, timestamp}` (plus `messageId` when built from a history load). -/
structure RespVersion where
  content : String
  timestamp : Nat := 0
deriving DecidableEq, Repr

/-- The assistant `.message` element inside the container with
`data-response-to-message-id`: its raw content and `data-version-index`. -/
structure DisplayedResponse where
  rawContent : String
  versionIndex : Int
deriving DecidableEq, Repr

/-- The store of conversation-manager.js (first document): the
`responseVersions` map and the assistant-response containers keyed by the user
message they answer. -/
structure CMState where
  responseVersions : List (String × List RespVersion)
  displayed : List (String × DisplayedResponse)
deriving DecidableEq, Repr

/-- `responseVersions[userMessageId]` — `none` models JS `undefined`. -/
def lookupVersions (st : CMState) (userMessageId : String) : Option (List RespVersion) :=
  (st.responseVersions.find? (fun p => p.1 == userMessageId)).map (fun p => p.2)

/-- How a `switchResponseVersion` call ends: a successful switch to index
`idx`; the silent early return of the `!versions || versionIndex >=
versions.length` guard; the silent early return when no assistant container
(or no `.message` inside it) exists; or the uncaught TypeError thrown by
`versions[versionIndex].content` when `versionIndex` is negative (the element
is `undefined`, and the throw happens before any assignment). -/
inductive SwitchOutcome
  | switched (idx : Nat)
  | noVersionsOrOutOfRange
  | noContainer
  | undefinedAccess
deriving DecidableEq, Repr

/-- `switchResponseVersion` (conversation-manager.js lines 328-349).  Guard:
return if `responseVersions[userMessageId]` is `undefined` or `versionIndex >=
versions.length`; return if the assistant container or its `.message` is
missing; otherwise rewrite the displayed content, raw content and
`data-version-index` from `versions[versionIndex]` — which for a negative
index throws before any mutation.  The function performs no `fetch`. -/
def switchResponseVersion (st : CMState) (userMessageId : String) (versionIndex : Int) :
    CMState × SwitchOutcome × List Request :=
  match lookupVersions st userMessageId with
  | none => (st, SwitchOutcome.noVersionsOrOutOfRange, [])
  | some versions =>
    if (versions.length : Int) ≤ versionIndex then
      (st, SwitchOutcome.noVersionsOrOutOfRange, [])
    else if (st.displayed.find? (fun p => p.1 == userMessageId)).isNone then
      (st, SwitchOutcome.noContainer, [])
    else if versionIndex < 0 then
      (st, SwitchOutcome.undefinedAccess, [])
    else
      let idx := versionIndex.toNat
      let v := versions.getD idx { content := "" }
      let displayed := updateFirst (fun p => p.1 == userMessageId)
        (fun p => (p.1, { rawContent := v.content, versionIndex := versionIndex }))
        st.displayed
      ({ st with displayed := displayed }, SwitchOutcome.switched idx, [])

/-! ## Helper lemmas -/

/-- The delays scheduled by `n` consecutive close events starting from attempt
counter `a`: the `k`-th close (0-indexed) schedules `min(2^(a+k+1)*1000, 30000)`. -/
theorem runEvents_replicate (a n : Nat) :
    (runEvents a (List.replicate n WSEvent.closeEvt)).2
      = (List.range n).map (fun k => min (2 ^ (a + k + 1) * 1000) 30000) := by
  induction n generalizing a with
  | zero => simp [runEvents]
  | succ n ih =>
    rw [List.replicate_succ, List.range_succ_eq_map]
    simp only [runEvents, scheduleReconnect, List.map_cons, List.map_map]
    congr 1
    rw [ih (a + 1)]
    apply List.map_congr_left
    intro k _
    simp only [Function.comp_apply, Nat.succ_eq_add_one]
    have h : a + 1 + k + 1 = a + (k + 1) + 1 := by omega
    rw [h]

/-- A list with a match decomposes around its first match, and `updateFirst`
rewrites exactly that element. -/
theorem updateFirst_decomposition {α : Type} (p : α → Bool) (f : α → α) :
    ∀ (l : List α), l.any p = true →
      ∃ l1 x l2, l = l1 ++ x :: l2 ∧ p x = true ∧ (∀ y ∈ l1, p y = false) ∧
        updateFirst p f l = l1 ++ f x :: l2 := by
  intro l
  induction l with
  | nil => intro h; simp at h
  | cons a l ih =>
    intro h
    by_cases ha : p a = true
    · exact ⟨[], a, l, by simp, ha, by simp, by simp [updateFirst, ha]⟩
    · have ha' : p a = false := by
        cases hpa : p a
        · rfl
        · exact absurd hpa ha
      have h' : l.any p = true := by
        rcases List.any_eq_true.mp h with ⟨y, hy, hpy⟩
        rcases List.mem_cons.mp hy with hy | hy
        · rw [hy] at hpy; rw [ha'] at hpy; cases hpy
        · exact List.any_eq_true.mpr ⟨y, hy, hpy⟩
      rcases ih h' with ⟨l1, x, l2, hl, hx, hl1, hu⟩
      refine ⟨a :: l1, x, l2, by simp [hl], hx, ?_, ?_⟩
      · intro y hy
        rcases List.mem_cons.mp hy with hy | hy
        · rw [hy]; exact ha'
        · exact hl1 y hy
      · simp [updateFirst, ha', hu]

/-- Erasing the unique match of `p` removes all matches and shortens the list
by one. -/
theorem eraseP_of_countP_one {α : Type} (p : α → Bool) :
    ∀ (l : List α), l.countP p = 1 →
      (l.eraseP p).countP p = 0 ∧ (l.eraseP p).length + 1 = l.length := by
  intro l
  induction l with
  | nil => intro h; simp at h
  | cons a l ih =>
    intro h
    by_cases ha : p a = true
    · rw [List.countP_cons_of_pos _ _ ha] at h
      have h0 : l.countP p = 0 := by omega
      simp only [List.eraseP_cons, ha, cond_true]
      exact ⟨h0, by simp⟩
    · have ha' : p a = false := by
        cases hpa : p a
        · rfl
        · exact absurd hpa ha
      rw [List.countP_cons_of_neg _ _ (by simp [ha'])] at h
      rcases ih h with ⟨h1, h2⟩
      simp only [List.eraseP_cons, ha', cond_false]
      constructor
      · rw [List.countP_cons_of_neg _ _ (by simp [ha'])]
        exact h1
      · simp only [List.length_cons]
        omega

/-! ## Claim C3 -/

/-- Claim C3 (confirmed): for a run of consecutive connection failures starting
from a fresh attempt counter, the delay before the n-th reconnection attempt
(1-indexed) is `min(1000 * 2^n, 30000)` milliseconds, and the first six delays
are 2s, 4s, 8s, 16s, 30s, 30s. -/
theorem c3_backoff_sequence :
    (∀ n : Nat, (runEvents 0 (List.replicate n WSEvent.closeEvt)).2
        = (List.range n).map (fun k => min (1000 * 2 ^ (k + 1)) 30000)) ∧
    (runEvents 0 (List.replicate 6 WSEvent.closeEvt)).2
      = [2000, 4000, 8000, 16000, 30000, 30000] := by
  constructor
  · intro n
    rw [runEvents_replicate 0 n]
    apply List.map_congr_left
    intro k _
    rw [Nat.zero_add, Nat.mul_comm (2 ^ (k + 1)) 1000]
  · decide

/-! ## Claim C4 -/

/-- Counterexample to claim C4: after two failures (delays 2s, 4s) the attempt
counter is 2; a successful open leaves it at 2 instead of resetting it to 0, so
the failure after the success schedules an 8s delay — the sequence continues
instead of restarting from the beginning. -/
theorem c4_counterexample :
    (runEvents 0 [WSEvent.closeEvt, WSEvent.closeEvt, WSEvent.openEvt]).1 = 2 ∧
    (runEvents 0 [WSEvent.closeEvt, WSEvent.closeEvt, WSEvent.openEvt,
        WSEvent.closeEvt]).2 = [2000, 4000, 8000] ∧
    ¬ (2 : Nat) = 0 ∧ ¬ (8000 : Nat) = 2000 := by
  decide

/-- Claim C4 as amended: the `onopen` handler never resets the attempt counter
— a successful connection leaves it unchanged, so the delays of a later run of
failures continue from the previous counter value `a`, the `k`-th subsequent
delay (0-indexed) being `min(2^(a+k+1)*1000, 30000)` rather than restarting
from the beginning of the sequence. -/
theorem c4_no_reset_on_success :
    ∀ (a : Nat) (conv : Option String) (u c : String) (n : Nat),
      (onopen a conv u c).1 = a ∧
      (runEvents (onopen a conv u c).1 (List.replicate n WSEvent.closeEvt)).2
        = (List.range n).map (fun k => min (2 ^ (a + k + 1) * 1000) 30000) := by
  intro a conv u c n
  exact ⟨rfl, runEvents_replicate a n⟩

/-! ## Claim C5 -/

/-- Counterexample to claim C5: with no socket (state not Connected),
`WebSocketManager.sendMessage` does not return `false` — it returns no value at
all — and it initiates one implicit `connectWebSocket()` attempt. -/
theorem c5_counterexample :
    (manager_sendMessage none none "default_user" "c1"
        { message := some "Hello", type := some "message" }).connectAttempts = 1 ∧
    (manager_sendMessage none none "default_user" "c1"
        { message := some "Hello", type := some "message" }).retVal = none ∧
    ¬ (manager_sendMessage none none "default_user" "c1"
        { message := some "Hello", type := some "message" }).retVal = some false := by
  decide

/-- Claim C5 as amended: when the connection is not open, `wsClient.send`
returns `false` immediately with no transmission, no queueing and no implicit
connection attempt; the `WebSocketManager.sendMessage` variant, by contrast,
transmits nothing but returns no boolean and initiates one implicit
reconnection attempt instead. -/
theorem c5_send_when_disconnected :
    ∀ (socket : Option ReadyState) (payload : Envelope)
      (curConv : Option String) (userId clientId : String),
      wsIsOpen socket = false →
      (wsClient_sendMessage socket payload).retVal = false ∧
      (wsClient_sendMessage socket payload).transmitted = [] ∧
      (wsClient_sendMessage socket payload).queued = [] ∧
      (wsClient_sendMessage socket payload).connectAttempts = 0 ∧
      (manager_sendMessage socket curConv userId clientId payload).retVal = none ∧
      (manager_sendMessage socket curConv userId clientId payload).transmitted = [] ∧
      (manager_sendMessage socket curConv userId clientId payload).connectAttempts = 1 := by
  intro socket payload curConv userId clientId h
  simp [wsClient_sendMessage, manager_sendMessage, h]

/-- Witness for `c5_send_when_disconnected` at a concrete disconnected state
(`socket = null`) and a concrete payload. -/
theorem c5_send_when_disconnected_witness :
    wsIsOpen none = false ∧
    ((wsClient_sendMessage none { message := some "Hi" }).retVal = false ∧
     (wsClient_sendMessage none { message := some "Hi" }).transmitted = [] ∧
     (wsClient_sendMessage none { message := some "Hi" }).queued = [] ∧
     (wsClient_sendMessage none { message := some "Hi" }).connectAttempts = 0 ∧
     (manager_sendMessage none none "u" "c" { message := some "Hi" }).retVal = none ∧
     (manager_sendMessage none none "u" "c" { message := some "Hi" }).transmitted = [] ∧
     (manager_sendMessage none none "u" "c" { message := some "Hi" }).connectAttempts = 1) :=
  ⟨by decide, c5_send_when_disconnected none { message := some "Hi" } none "u" "c" (by decide)⟩

/-! ## Claim C10 -/

/-- Claim C10 (confirmed): `getAllMessages` returns a defensive copy — a fresh
array (a reference distinct from `messageHistory`) whose contents equal the
stored history, and overwriting the returned array's contents in any way (add,
remove, reorder) leaves the internal history unchanged. -/
theorem c10_getAllMessages_defensive_copy :
    ∀ (h : JsHeap) (r : Nat), r < h.cells.length →
      ((getAllMessages h r).1.read (getAllMessages h r).2 = h.read r) ∧
      ¬ (getAllMessages h r).2 = r ∧
      ((getAllMessages h r).1.read r = h.read r) ∧
      (∀ v : List HistEntry,
        (((getAllMessages h r).1.write (getAllMessages h r).2 v).read r = h.read r)) := by
  intro h r hr
  refine ⟨?_, ?_, ?_, ?_⟩
  · simp [getAllMessages, JsHeap.alloc, JsHeap.read,
      List.getD_eq_getElem?_getD, List.getElem?_concat_length]
  · simp only [getAllMessages, JsHeap.alloc]
    omega
  · simp only [getAllMessages, JsHeap.alloc, JsHeap.read, List.getD_eq_getElem?_getD]
    rw [List.getElem?_append_left hr]
  · intro v
    have hne : ¬ r = (getAllMessages h r).2 := by
      simp only [getAllMessages, JsHeap.alloc]
      omega
    simp only [getAllMessages, JsHeap.alloc, JsHeap.write, JsHeap.read,
      List.getD_eq_getElem?_getD] at hne ⊢
    rw [List.getElem?_set_ne (fun hc => hne hc.symm)]
    rw [List.getElem?_append_left hr]

/-- Witness for `c10_getAllMessages_defensive_copy` on a one-cell heap holding
a one-message history. -/
theorem c10_getAllMessages_defensive_copy_witness :
    (0 : Nat) < (JsHeap.mk [[{ id := "1", content := "Hello", role := Role.user }]]).cells.length ∧
    (((getAllMessages (JsHeap.mk [[{ id := "1", content := "Hello", role := Role.user }]]) 0).1.read
        (getAllMessages (JsHeap.mk [[{ id := "1", content := "Hello", role := Role.user }]]) 0).2
      = (JsHeap.mk [[{ id := "1", content := "Hello", role := Role.user }]]).read 0) ∧
     ¬ (getAllMessages (JsHeap.mk [[{ id := "1", content := "Hello", role := Role.user }]]) 0).2 = 0 ∧
     ((getAllMessages (JsHeap.mk [[{ id := "1", content := "Hello", role := Role.user }]]) 0).1.read 0
      = (JsHeap.mk [[{ id := "1", content := "Hello", role := Role.user }]]).read 0) ∧
     (∀ v : List HistEntry,
       (((getAllMessages (JsHeap.mk [[{ id := "1", content := "Hello", role := Role.user }]]) 0).1.write
           (getAllMessages (JsHeap.mk [[{ id := "1", content := "Hello", role := Role.user }]]) 0).2 v).read 0
        = (JsHeap.mk [[{ id := "1", content := "Hello", role := Role.user }]]).read 0))) :=
  ⟨by decide,
   c10_getAllMessages_defensive_copy
     (JsHeap.mk [[{ id := "1", content := "Hello", role := Role.user }]]) 0 (by decide)⟩

/-! ## Claim C7 -/

/-- Claim C7 (confirmed): for every version set and every index outside
`0..len-1` (including negative indices), `switchResponseVersion` does not
succeed (the guard returns silently for `index >= len`; a negative index hits
the `versions[index].content` TypeError before any mutation), performs no
network call, and leaves the whole store — version sets and displayed active
version alike — unchanged; and whenever a switch does succeed its index is
within `0..len-1`, so the displayed active version stays valid after every
select. -/
theorem c7_switch_version_out_of_range :
    ∀ (st : CMState) (uid : String) (versions : List RespVersion) (idx : Int),
      lookupVersions st uid = some versions →
      ((idx < 0 ∨ (versions.length : Int) ≤ idx) →
        (switchResponseVersion st uid idx).1 = st ∧
        (switchResponseVersion st uid idx).2.2 = [] ∧
        ∀ i, ¬ (switchResponseVersion st uid idx).2.1 = SwitchOutcome.switched i) ∧
      (∀ i, (switchResponseVersion st uid idx).2.1 = SwitchOutcome.switched i →
        0 ≤ idx ∧ idx < (versions.length : Int) ∧ (i : Int) = idx) := by
  intro st uid versions idx hv
  constructor
  · intro hbad
    simp only [switchResponseVersion, hv]
    by_cases hle : (versions.length : Int) ≤ idx
    · simp [hle]
    · have hneg : idx < 0 := by
        rcases hbad with hbad | hbad
        · exact hbad
        · exact absurd hbad hle
      by_cases hc : (st.displayed.find? (fun p => p.1 == uid)).isNone
      · simp [hle, hc]
      · simp [hle, hc, hneg]
  · intro i hi
    simp only [switchResponseVersion, hv] at hi
    by_cases hle : (versions.length : Int) ≤ idx
    · simp [hle] at hi
    · by_cases hc : (st.displayed.find? (fun p => p.1 == uid)).isNone
      · simp [hle, hc] at hi
      · by_cases hneg : idx < 0
        · simp [hle, hc, hneg] at hi
        · simp only [hle, hc, hneg, if_false, if_neg, Bool.false_eq_true] at hi
          refine ⟨by omega, by omega, ?_⟩
          have : i = idx.toNat := by
            simpa using hi.symm
          rw [this]
          omega

/-- Witness for `c7_switch_version_out_of_range`: a concrete store with one
version set of length 1, selected at index `-1`. -/
theorem c7_switch_version_out_of_range_witness :
    lookupVersions (CMState.mk [("u", [{ content := "v0" }])]
        [("u", { rawContent := "v0", versionIndex := 0 })]) "u" = some [{ content := "v0" }] ∧
    ((-1 : Int) < 0 ∨ (([{ content := "v0" }] : List RespVersion).length : Int) ≤ -1) ∧
    ((switchResponseVersion (CMState.mk [("u", [{ content := "v0" }])]
        [("u", { rawContent := "v0", versionIndex := 0 })]) "u" (-1)).1
      = CMState.mk [("u", [{ content := "v0" }])]
          [("u", { rawContent := "v0", versionIndex := 0 })] ∧
     (switchResponseVersion (CMState.mk [("u", [{ content := "v0" }])]
        [("u", { rawContent := "v0", versionIndex := 0 })]) "u" (-1)).2.2 = [] ∧
     ∀ i, ¬ (switchResponseVersion (CMState.mk [("u", [{ content := "v0" }])]
        [("u", { rawContent := "v0", versionIndex := 0 })]) "u" (-1)).2.1
          = SwitchOutcome.switched i) :=
  ⟨by decide, Or.inl (by decide),
   (c7_switch_version_out_of_range
     (CMState.mk [("u", [{ content := "v0" }])]
       [("u", { rawContent := "v0", versionIndex := 0 })])
     "u" [{ content := "v0" }] (-1) (by decide)).1 (Or.inl (by decide))⟩

/-! ## Claim C6 -/

/-- Counterexample to claim C6: saving an edit with empty text is not rejected
locally — `saveMessageEdit` issues its WebSocket envelope (carrying the empty
content) anyway, with no validation before the network access. -/
theorem c6_counterexample :
    jsTrim "" = "" ∧
    (saveMessageEdit
        { chat := [{ id := "42", content := "Hello", role := Role.user }] }
        true "default_user" none "42" "").envelopes
      = [{ user_id := some "default_user", message := some "",
           conversation_id := none, edit_message_id := some "42" }] := by
  decide

/-- Claim C6 as amended: `sendUserMessage` (message-handler.js 253-266) rejects
empty/whitespace-only text locally — it returns `false`, leaves the history
untouched and issues no envelope; the edit operation performs no such
validation: `saveMessageEdit` (message-handlers.js 265-296) always issues
exactly one envelope or REST request, even when the new content is empty or
whitespace-only. -/
theorem c6_empty_text_validation :
    ∀ (history : List HistEntry) (cp : Bool) (socket : Option ReadyState)
      (userId : String) (conv : Option String) (message : String) (now : Nat)
      (st : MHState) (connected : Bool) (uid : String) (cid : Option String)
      (messageId newContent : String),
      jsTrim message = "" →
      (mh_sendUserMessage history cp socket userId conv message now).1 = false ∧
      (mh_sendUserMessage history cp socket userId conv message now).2.1 = history ∧
      (mh_sendUserMessage history cp socket userId conv message now).2.2 = [] ∧
      ((saveMessageEdit st connected uid cid messageId newContent).envelopes.length
        + (saveMessageEdit st connected uid cid messageId newContent).requests.length = 1) := by
  intro history cp socket userId conv message now st connected uid cid messageId newContent h
  refine ⟨?_, ?_, ?_, ?_⟩
  · simp [mh_sendUserMessage, h]
  · simp [mh_sendUserMessage, h]
  · simp [mh_sendUserMessage, h]
  · cases connected <;> simp [saveMessageEdit]

/-- Witness for `c6_empty_text_validation` at whitespace-only send text and an
empty edit, in the connected state. -/
theorem c6_empty_text_validation_witness :
    jsTrim "  " = "" ∧
    ((mh_sendUserMessage [] true (some ReadyState.openRS) "u" none "  " 5).1 = false ∧
     (mh_sendUserMessage [] true (some ReadyState.openRS) "u" none "  " 5).2.1 = [] ∧
     (mh_sendUserMessage [] true (some ReadyState.openRS) "u" none "  " 5).2.2 = [] ∧
     ((saveMessageEdit { chat := [] } true "u" none "42" "").envelopes.length
       + (saveMessageEdit { chat := [] } true "u" none "42" "").requests.length = 1)) :=
  ⟨by decide,
   c6_empty_text_validation [] true (some ReadyState.openRS) "u" none "  " 5
     { chat := [] } true "u" none "42" "" (by decide)⟩

/-! ## Claim C8 -/

/-- Counterexample to claim C8: on a store holding message "42" (and its DOM
container), a confirmed `deleteMessage("42")` removes the entry from the
history immediately and synchronously while issuing no delete request at all —
the store change does not wait for any request to resolve, and there is no
request whose failure could roll it back. -/
theorem c8_counterexample :
    (mh_deleteMessage true [{ id := "42", content := "Hello", role := Role.user }]
        [{ messageId := "42", role := Role.user }] "42").history = [] ∧
    (mh_deleteMessage true [{ id := "42", content := "Hello", role := Role.user }]
        [{ messageId := "42", role := Role.user }] "42").requests = [] ∧
    (mh_deleteMessage true [{ id := "42", content := "Hello", role := Role.user }]
        [{ messageId := "42", role := Role.user }] "42").ret = true := by
  decide

/-- Claim C8 as amended: `deleteMessage` (message-handler.js 210-231) acts
entirely locally and synchronously.  Without user confirmation nothing
changes; with confirmation and an existing message element, the message is
removed from the history at once and the call returns `true` — no delete
request is ever issued (the function contains no fetch), so there is neither a
server-confirmed removal nor a rollback path. -/
theorem c8_delete_is_local_and_synchronous :
    ∀ (history : List HistEntry) (dom : List DomContainer) (mid : String),
      ((mh_deleteMessage false history dom mid).history = history ∧
       (mh_deleteMessage false history dom mid).dom = dom ∧
       (mh_deleteMessage false history dom mid).requests = [] ∧
       (mh_deleteMessage false history dom mid).ret = false) ∧
      (dom.any (fun c => c.messageId == mid) = true →
        history.countP (fun e => e.id == mid) = 1 →
        (mh_deleteMessage true history dom mid).ret = true ∧
        (mh_deleteMessage true history dom mid).requests = [] ∧
        (mh_deleteMessage true history dom mid).history.countP (fun e => e.id == mid) = 0 ∧
        (mh_deleteMessage true history dom mid).history.length + 1 = history.length) := by
  intro history dom mid
  constructor
  · simp [mh_deleteMessage]
  · intro hdom hcount
    have he := eraseP_of_countP_one (fun e => e.id == mid) history hcount
    simp only [mh_deleteMessage, hdom, if_true]
    exact ⟨trivial, trivial, he.1, he.2⟩

/-- Witness for `c8_delete_is_local_and_synchronous` at the concrete
one-message store. -/
theorem c8_delete_is_local_and_synchronous_witness :
    ([{ messageId := "42", role := Role.user }] : List DomContainer).any
        (fun c => c.messageId == "42") = true ∧
    ([{ id := "42", content := "Hello", role := Role.user }] : List HistEntry).countP
        (fun e => e.id == "42") = 1 ∧
    ((mh_deleteMessage true [{ id := "42", content := "Hello", role := Role.user }]
        [{ messageId := "42", role := Role.user }] "42").ret = true ∧
     (mh_deleteMessage true [{ id := "42", content := "Hello", role := Role.user }]
        [{ messageId := "42", role := Role.user }] "42").requests = [] ∧
     (mh_deleteMessage true [{ id := "42", content := "Hello", role := Role.user }]
        [{ messageId := "42", role := Role.user }] "42").history.countP
        (fun e => e.id == "42") = 0 ∧
     (mh_deleteMessage true [{ id := "42", content := "Hello", role := Role.user }]
        [{ messageId := "42", role := Role.user }] "42").history.length + 1
       = ([{ id := "42", content := "Hello", role := Role.user }] : List HistEntry).length) :=
  ⟨by decide, by decide,
   (c8_delete_is_local_and_synchronous
     [{ id := "42", content := "Hello", role := Role.user }]
     [{ messageId := "42", role := Role.user }] "42").2 (by decide) (by decide)⟩

/-! ## Claim C2 -/

/-- Counterexample to claim C2: with one assistant response for parent "p" in
the chat, a first `regenerateResponse("p")` issues a regenerate request; a
second `regenerateResponse("p")` issued while that request is still unresolved
is not rejected — it reports `issued` and hands a second regenerate request
for the same parent to the network. -/
theorem c2_counterexample :
    (regenerateResponse { chat := [{ id := "r1", content := "resp", role := Role.assistant, parentId := some "p" }] } "p").requests
      = [Request.regenerate "p"] ∧
    (regenerateResponse (regenerateResponse { chat := [{ id := "r1", content := "resp", role := Role.assistant, parentId := some "p" }] } "p").state "p").outcome
      = RegenOutcome.issued ∧
    (regenerateResponse (regenerateResponse { chat := [{ id := "r1", content := "resp", role := Role.assistant, parentId := some "p" }] } "p").state "p").requests
      = [Request.regenerate "p"] := by
  decide

/-- Claim C2 as amended: `regenerateResponse` keeps no record of in-flight
operations and performs no busy check — whenever a response element for the
parent exists it issues a regenerate request unconditionally, so a second call
made while the first call's request is still pending issues a second request
for the same parent (neither rejected, nor merged, nor queued as one). -/
theorem c2_no_busy_guard :
    ∀ (st : MHState) (parentId : String),
      st.chat.any (fun m => m.parentId == some parentId) = true →
      (regenerateResponse st parentId).outcome = RegenOutcome.issued ∧
      (regenerateResponse st parentId).requests = [Request.regenerate parentId] ∧
      (regenerateResponse (regenerateResponse st parentId).state parentId).outcome
        = RegenOutcome.issued ∧
      (regenerateResponse (regenerateResponse st parentId).state parentId).requests
        = [Request.regenerate parentId] := by
  intro st parentId h
  have key : ∀ s : MHState, s.chat.any (fun m => m.parentId == some parentId) = true →
      (regenerateResponse s parentId).outcome = RegenOutcome.issued ∧
      (regenerateResponse s parentId).requests = [Request.regenerate parentId] := by
    intro s hs
    simp [regenerateResponse, hs]
  have h2 : ((regenerateResponse st parentId).state).chat.any
      (fun m => m.parentId == some parentId) = true := by
    rcases updateFirst_decomposition (fun m => m.parentId == some parentId)
      (fun m => { m with content := "Regenerating..." }) st.chat h with
      ⟨l1, x, l2, _, hx, _, hu⟩
    have hchat : ((regenerateResponse st parentId).state).chat
        = l1 ++ { x with content := "Regenerating..." } :: l2 := by
      simp [regenerateResponse, h, hu]
    rw [hchat]
    apply List.any_eq_true.mpr
    refine ⟨{ x with content := "Regenerating..." }, ?_, hx⟩
    simp
  exact ⟨(key st h).1, (key st h).2, (key _ h2).1, (key _ h2).2⟩

/-- Witness for `c2_no_busy_guard` at the one-response chat for parent "p". -/
theorem c2_no_busy_guard_witness :
    (([{ id := "r1", content := "resp", role := Role.assistant, parentId := some "p" }] : List Msg).any
        (fun m => m.parentId == some "p") = true) ∧
    ((regenerateResponse { chat := [{ id := "r1", content := "resp", role := Role.assistant, parentId := some "p" }] } "p").outcome
      = RegenOutcome.issued ∧
     (regenerateResponse { chat := [{ id := "r1", content := "resp", role := Role.assistant, parentId := some "p" }] } "p").requests
      = [Request.regenerate "p"] ∧
     (regenerateResponse (regenerateResponse { chat := [{ id := "r1", content := "resp", role := Role.assistant, parentId := some "p" }] } "p").state "p").outcome
      = RegenOutcome.issued ∧
     (regenerateResponse (regenerateResponse { chat := [{ id := "r1", content := "resp", role := Role.assistant, parentId := some "p" }] } "p").state "p").requests
      = [Request.regenerate "p"]) :=
  ⟨by decide,
   c2_no_busy_guard { chat := [{ id := "r1", content := "resp", role := Role.assistant, parentId := some "p" }] } "p" (by decide)⟩

/-! ## Claim C1 -/

/-- Counterexample to claim C1: `sendUserMessage("Hello")` at t=100 displays the
message under temp id "temp-100"; when the server acknowledgment arrives as a
push envelope with server id "42", `handleIncomingMessage` appends it as a new
element — afterwards the store holds one message with id "42" **and still one
message with id "temp-100"**, where the claim requires zero. -/
theorem c1_counterexample :
    (handleIncomingMessage (sendUserMessage { chat := [] } true "Hello" "default_user" none 100).state { id := "42", content := "Hello", role := Role.user }).chat.countP (fun m => m.id == "42") = 1 ∧
    (handleIncomingMessage (sendUserMessage { chat := [] } true "Hello" "default_user" none 100).state { id := "42", content := "Hello", role := Role.user }).chat.countP (fun m => m.id == "temp-100") = 1 := by
  decide

/-- Claim C1 as amended: the client never promotes temp ids.  After a
`send(text)` that created the user message under `temp-now` and the server
acknowledgment carrying a fresh server id, the store contains exactly one
message with the server id **and still exactly one message with the temporary
id** — the acknowledged message is appended as a separate entry and the
temporary one is neither replaced nor removed. -/
theorem c1_no_temp_id_promotion :
    ∀ (st : MHState) (text userId : String) (conv : Option String) (now : Nat)
      (serverId content2 : String),
      st.currentEditingMessageId = none →
      ¬ jsTrim text = "" →
      (∀ m ∈ st.chat, ¬ m.id = serverId ∧ ¬ m.id = "temp-" ++ toString now) →
      ¬ serverId = "temp-" ++ toString now →
      (handleIncomingMessage (sendUserMessage st true text userId conv now).state
          { id := serverId, content := content2, role := Role.user }).chat.countP
        (fun m => m.id == serverId) = 1 ∧
      (handleIncomingMessage (sendUserMessage st true text userId conv now).state
          { id := serverId, content := content2, role := Role.user }).chat.countP
        (fun m => m.id == ("temp-" ++ toString now)) = 1 := by
  intro st text userId conv now serverId content2 hedit htrim hfree hneq
  have hb : (jsTrim text == "") = false := by
    simpa using htrim
  have hchat1 : (sendUserMessage st true text userId conv now).state.chat
      = st.chat ++ [{ id := "temp-" ++ toString now, content := text, role := Role.user }] := by
    simp [sendUserMessage, hb, hedit]
  have hchat2 : (handleIncomingMessage (sendUserMessage st true text userId conv now).state
        { id := serverId, content := content2, role := Role.user }).chat
      = (st.chat ++ [{ id := "temp-" ++ toString now, content := text, role := Role.user }])
        ++ [{ id := serverId, content := content2, role := Role.user }] := by
    simp [handleIncomingMessage, createMessageData, hchat1]
  have htn : ¬ ("temp-" ++ toString now) = serverId := fun hc => hneq hc.symm
  have h0s : st.chat.countP (fun m => m.id == serverId) = 0 := by
    apply List.countP_eq_zero.mpr
    intro a ha
    simp [(hfree a ha).1]
  have h0t : st.chat.countP (fun m => m.id == ("temp-" ++ toString now)) = 0 := by
    apply List.countP_eq_zero.mpr
    intro a ha
    simp [(hfree a ha).2]
  constructor
  · rw [hchat2, List.countP_append, List.countP_append, h0s]
    simp [htn]
  · rw [hchat2, List.countP_append, List.countP_append, h0t]
    simp [hneq]

/-- Witness for `c1_no_temp_id_promotion`: empty initial store, `send("Hello")`
at t=100 acknowledged with server id "42". -/
theorem c1_no_temp_id_promotion_witness :
    (({ chat := [] } : MHState).currentEditingMessageId = none ∧
     ¬ jsTrim "Hello" = "" ∧
     (∀ m ∈ ({ chat := [] } : MHState).chat, ¬ m.id = "42" ∧ ¬ m.id = "temp-" ++ toString 100) ∧
     ¬ "42" = "temp-" ++ toString 100) ∧
    ((handleIncomingMessage (sendUserMessage { chat := [] } true "Hello" "default_user" none 100).state { id := "42", content := "Hello", role := Role.user }).chat.countP (fun m => m.id == "42") = 1 ∧
     (handleIncomingMessage (sendUserMessage { chat := [] } true "Hello" "default_user" none 100).state { id := "42", content := "Hello", role := Role.user }).chat.countP (fun m => m.id == ("temp-" ++ toString 100)) = 1) :=
  ⟨⟨by decide, by decide, by decide, by decide⟩,
   c1_no_temp_id_promotion { chat := [] } "Hello" "default_user" none 100 "42" "Hello"
     (by decide) (by decide) (by decide) (by decide)⟩

/-! ## Claim C9 -/

/-- For an envelope carrying an edit-target id, `handleIncomingMessage` changes
the chat exactly as `replaceMessage` does (the remaining steps — exiting edit
mode, adopting a conversation id, tracking last ids — do not touch the chat). -/
theorem handleIncoming_chat_edit :
    ∀ (st : MHState) (data : IncomingData) (editId : String),
      data.edit_message_id = some editId →
      (handleIncomingMessage st data).chat = replaceMessage st.chat editId data := by
  intro st data editId h
  simp only [handleIncomingMessage, h]
  cases hc : data.conversation_id <;> cases hr : data.role <;>
    by_cases he : st.currentEditingMessageId.isSome <;>
    simp [he]

/-- Counterexample to claim C9: an edit envelope targeting message "42" that
itself carries `is_edited = false` (the field is optional on push envelopes)
replaces the content in place but does **not** mark the message as edited —
the edited indicator is only added when the envelope carries `is_edited`. -/
theorem c9_counterexample :
    (handleIncomingMessage { chat := [{ id := "42", content := "old", role := Role.user }] } { id := "srv1", content := "new", role := Role.user, edit_message_id := some "42" }).chat = [{ id := "42", content := "new", role := Role.user, isEdited := false }] ∧
    (handleIncomingMessage { chat := [{ id := "42", content := "old", role := Role.user }] } { id := "srv1", content := "new", role := Role.user, edit_message_id := some "42" }).chat.countP (fun m => m.isEdited) = 0 := by
  decide

/-- Claim C9 as amended: for every inbound envelope carrying an edit-target id,
if no message with that id exists the envelope is inserted at the end as a new
message marked edited (defensive fallback); if exactly one message with that id
exists, that message's content is replaced in place — the chat keeps its
length, messages with other ids are preserved in both directions, and the
target still occurs exactly once — but it is marked as edited only when the
envelope itself carries `is_edited`. -/
theorem c9_edit_reconciliation :
    ∀ (st : MHState) (editId : String) (data : IncomingData),
      data.edit_message_id = some editId →
      ((∀ m ∈ st.chat, ¬ m.id = editId) →
        (handleIncomingMessage st data).chat
          = st.chat ++ [{ id := editId, content := data.content,
                          role := data.role, isEdited := true }]) ∧
      (st.chat.countP (fun m => m.id == editId) = 1 →
        (handleIncomingMessage st data).chat.length = st.chat.length ∧
        (handleIncomingMessage st data).chat.countP (fun m => m.id == editId) = 1 ∧
        (∀ m ∈ st.chat, ¬ m.id = editId → m ∈ (handleIncomingMessage st data).chat) ∧
        (∀ m ∈ (handleIncomingMessage st data).chat, ¬ m.id = editId → m ∈ st.chat) ∧
        (∀ m ∈ (handleIncomingMessage st data).chat, m.id = editId →
          m.content = data.content ∧ (data.is_edited = true → m.isEdited = true))) := by
  intro st editId data h
  rw [handleIncoming_chat_edit st data editId h]
  constructor
  · intro hnone
    have hany : st.chat.any (fun m => m.id == editId) = false := by
      apply List.any_eq_false.mpr
      intro m hm
      simp [hnone m hm]
    simp [replaceMessage, hany]
  · intro hcount
    have hany : st.chat.any (fun m => m.id == editId) = true := by
      have hpos : 0 < st.chat.countP (fun m => m.id == editId) := by omega
      rcases List.countP_pos_iff.mp hpos with ⟨m, hm, hpm⟩
      exact List.any_eq_true.mpr ⟨m, hm, hpm⟩
    rcases updateFirst_decomposition (fun m => m.id == editId)
      (fun m => { m with content := data.content, isEdited := m.isEdited || data.is_edited })
      st.chat hany with ⟨l1, x, l2, hl, hx, hl1, hu⟩
    have hxid : x.id = editId := by simpa using hx
    have hrepl : replaceMessage st.chat editId data
        = l1 ++ { x with content := data.content, isEdited := x.isEdited || data.is_edited } :: l2 := by
      simp only [replaceMessage, hany, if_true]
      exact hu
    have hc1 : l1.countP (fun m => m.id == editId) = 0 := by
      apply List.countP_eq_zero.mpr
      intro m hm
      simp [hl1 m hm]
    have hc2 : l2.countP (fun m => m.id == editId) = 0 := by
      rw [hl, List.countP_append, List.countP_cons] at hcount
      simp only [hx, if_true] at hcount
      omega
    have hl2 : ∀ m ∈ l2, (m.id == editId) = false := by
      intro m hm
      have hpm := List.countP_eq_zero.mp hc2 m hm
      cases hb : m.id == editId
      · rfl
      · exact absurd hb hpm
    refine ⟨?_, ?_, ?_, ?_, ?_⟩
    · rw [hrepl, hl]
      simp
    · rw [hrepl, List.countP_append, List.countP_cons_of_pos _ _ (by simpa using hxid), hc1, hc2]
    · intro m hm hmne
      rw [hrepl]
      rw [hl] at hm
      rcases List.mem_append.mp hm with hm1 | hm2
      · exact List.mem_append.mpr (Or.inl hm1)
      · rcases List.mem_cons.mp hm2 with hmx | hml2
        · rw [hmx] at hmne
          exact absurd hxid hmne
        · exact List.mem_append.mpr (Or.inr (List.mem_cons.mpr (Or.inr hml2)))
    · intro m hm hmne
      rw [hrepl] at hm
      rw [hl]
      rcases List.mem_append.mp hm with hm1 | hm2
      · exact List.mem_append.mpr (Or.inl hm1)
      · rcases List.mem_cons.mp hm2 with hmx | hml2
        · rw [hmx] at hmne
          simp at hmne
          exact absurd hxid hmne
        · exact List.mem_append.mpr (Or.inr (List.mem_cons.mpr (Or.inr hml2)))
    · intro m hm hmid
      rw [hrepl] at hm
      rcases List.mem_append.mp hm with hm1 | hm2
      · have := hl1 m hm1
        simp [hmid] at this
      · rcases List.mem_cons.mp hm2 with hmx | hml2
        · rw [hmx]
          refine ⟨rfl, ?_⟩
          intro hie
          simp [hie]
        · have := hl2 m hml2
          simp [hmid] at this

/-- Witness for `c9_edit_reconciliation`: an edit envelope with
`is_edited = true` targeting the single message "42". -/
theorem c9_edit_reconciliation_witness :
    ({ id := "srv1", content := "new", role := Role.user, edit_message_id := some "42", is_edited := true } : IncomingData).edit_message_id = some "42" ∧
    (({ chat := [{ id := "42", content := "old", role := Role.user }] } : MHState).chat.countP (fun m => m.id == "42") = 1) ∧
    ((handleIncomingMessage { chat := [{ id := "42", content := "old", role := Role.user }] } { id := "srv1", content := "new", role := Role.user, edit_message_id := some "42", is_edited := true }).chat.length
      = ({ chat := [{ id := "42", content := "old", role := Role.user }] } : MHState).chat.length ∧
     (handleIncomingMessage { chat := [{ id := "42", content := "old", role := Role.user }] } { id := "srv1", content := "new", role := Role.user, edit_message_id := some "42", is_edited := true }).chat.countP (fun m => m.id == "42") = 1 ∧
     (∀ m ∈ ({ chat := [{ id := "42", content := "old", role := Role.user }] } : MHState).chat, ¬ m.id = "42" → m ∈ (handleIncomingMessage { chat := [{ id := "42", content := "old", role := Role.user }] } { id := "srv1", content := "new", role := Role.user, edit_message_id := some "42", is_edited := true }).chat) ∧
     (∀ m ∈ (handleIncomingMessage { chat := [{ id := "42", content := "old", role := Role.user }] } { id := "srv1", content := "new", role := Role.user, edit_message_id := some "42", is_edited := true }).chat, ¬ m.id = "42" → m ∈ ({ chat := [{ id := "42", content := "old", role := Role.user }] } : MHState).chat) ∧
     (∀ m ∈ (handleIncomingMessage { chat := [{ id := "42", content := "old", role := Role.user }] } { id := "srv1", content := "new", role := Role.user, edit_message_id := some "42", is_edited := true }).chat, m.id = "42" →
        m.content = "new" ∧ (({ id := "srv1", content := "new", role := Role.user, edit_message_id := some "42", is_edited := true } : IncomingData).is_edited = true → m.isEdited = true))) :=
  ⟨by decide, by decide,
   (c9_edit_reconciliation { chat := [{ id := "42", content := "old", role := Role.user }] } "42"
     { id := "srv1", content := "new", role := Role.user, edit_message_id := some "42", is_edited := true }
     (by decide)).2 (by decide)⟩
